import Mathlib

/-!
Verification of the ranking / caching / vote pipeline of the researchhub
backend, as implemented in `paper/views.py` and
`researchhub_document/signals/researchhub_unified_document_signals.py`.

The data model (papers, votes, threads, the key-value cache) is embedded
shallowly: Django querysets over the vote and paper tables become pure
functions over lists, `order_by` becomes `List.insertionSort` with a
decidable total order (SQL `ORDER BY` is modelled deterministically), and
the cache backend becomes an explicit association list with a flag
modelling a backend that raises on `get`.  Timestamps are integers
(seconds since the epoch), as produced by `datetime.fromtimestamp` on the
request parameters.
-/

namespace ResearchHub

/-- Vote type: `Vote.UPVOTE` or `Vote.DOWNVOTE` in `paper.models.Vote`. -/
inductive VoteType
  | upvote
  | downvote
deriving DecidableEq, Repr

/-- A row of the paper vote table (`paper.models.Vote`): voter, voted-on
paper, vote type and the auto-updated timestamp used by the window
queries in `calculate_paper_ordering`. -/
structure Vote where
  id : Nat
  created_by : Nat
  paper_id : Nat
  vote_type : VoteType
  updated_date : Int
deriving DecidableEq, Repr

/-- A comment inside a discussion thread (`threads__comments`). -/
structure DiscussionComment where
  source : String
  created_date : Int
deriving DecidableEq, Repr

/-- A discussion thread attached to a paper (`threads`). -/
structure DiscussionThread where
  source : String
  created_date : Int
  comments : List DiscussionComment
deriving DecidableEq, Repr

/-- A row of the paper table with the fields the ranking pipeline reads:
stored all-time `score`, stored `hot_score`, `discussion_count`,
`uploaded_date`, the hub memberships (`hubs`), and the attached
discussion threads. -/
structure Paper where
  id : Nat
  score : Int
  hot_score : Int
  discussion_count : Int
  uploaded_date : Int
  hubs : List Nat
  threads : List DiscussionThread
deriving DecidableEq, Repr

/-! ### String membership, as Python `in` on strings -/

/-- Whether the first list of characters occurs at the head of the second. -/
def charsStartWith : List Char → List Char → Bool
  | [], _ => true
  | _ :: _, [] => false
  | a :: as, b :: bs => a == b && charsStartWith as bs

/-- Whether `needle` occurs contiguously somewhere in `hay`. -/
def strInAux (needle : List Char) : List Char → Bool
  | [] => needle.isEmpty
  | c :: rest => charsStartWith needle (c :: rest) || strInAux needle rest

/-- Python `needle in hay` on strings: contiguous substring containment,
used by the stringly-typed branch dispatch in `calculate_paper_ordering`. -/
def strIn (needle hay : String) : Bool :=
  strInAux needle.data hay.data

/-! ### Cache backend

The spec treats the cache as an external key-value store with
`get`, `set(ttl)` and `delete`, all best-effort.  `errOnGet` models a
backend whose `get` raises. -/

/-- The key-value cache backend: entries are (key, value, ttl); `errOnGet`
models a backend that raises on every read. -/
structure CacheState where
  entries : List (String × List Nat × Nat)
  errOnGet : Bool
deriving DecidableEq, Repr

/-- `cache.get`: the value stored at `k`, if any. -/
def cacheLookup (c : CacheState) (k : String) : Option (List Nat) :=
  (c.entries.find? (fun kv => kv.1 == k)).map (fun kv => kv.2.1)

/-- The ttl recorded for the entry at `k`, if any. -/
def cacheTTLOf (c : CacheState) (k : String) : Option Nat :=
  (c.entries.find? (fun kv => kv.1 == k)).map (fun kv => kv.2.2)

/-- `cache.set(k, v, timeout)`. -/
def cacheSet (c : CacheState) (k : String) (v : List Nat) (ttl : Nat) : CacheState :=
  { c with entries := (k, v, ttl) :: c.entries }

/-- Keep only the entries whose key satisfies `q`; `cache.delete` and the
bulk invalidation helpers are instances of this. -/
def cacheFilter (q : String → Bool) (c : CacheState) : CacheState :=
  { c with entries := c.entries.filter (fun kv => q kv.1) }

/-- `cache.delete(k)`. -/
def cacheDelete (c : CacheState) (k : String) : CacheState :=
  cacheFilter (fun k2 => !(k2 == k)) c

/-- `cache.get_or_set(k, compute, timeout)`: raises if the backend read
raises; on a hit returns the stored value; on a miss stores and returns
the freshly computed value. -/
def cacheGetOrSet (c : CacheState) (k : String) (compute : List Nat) (ttl : Nat) :
    Except String (List Nat × CacheState) :=
  if c.errOnGet then Except.error "cache backend error"
  else
    match cacheLookup c k with
    | some v => Except.ok (v, c)
    | none => Except.ok (compute, cacheSet c k compute ttl)

/-! ### Cache keys and invalidation -/

/-- Modelled from the spec: `paper.utils.get_cache_key` is not among the
source files; per the spec, cache keys are derived from the document kind
and a primary-key string, here by prefixing the kind. -/
def get_cache_key_hub (pk : String) : String :=
  "hub_" ++ pk

/-- Modelled from the spec: the paper-detail cache key built by
`paper.utils.get_cache_key(request, "paper")`, absent from the sources. -/
def paper_cache_key (pid : Nat) : String :=
  "paper_" ++ toString pid

/-- The ordering field strings produced by `_set_hub_paper_ordering`, one
per recognized ordering key (hot, top_rated, newest, most_discussed). -/
def ordering_fields : List String :=
  ["-hot_score", "-score", "-uploaded_date", "-discussed"]

/-- The time-bucket names appearing in the `cache_pk` construction of
`get_hub_papers`. -/
def bucket_names : List String :=
  ["today", "week", "month", "year", "all_time"]

/-- The ranking cache key for a (hub, ordering field, bucket) triple, as
built by `get_hub_papers`: `hub_{hub_id}_{ordering}_{bucket}`. -/
def ranking_cache_key (hub : Nat) (field bucket : String) : String :=
  get_cache_key_hub (toString hub ++ "_" ++ field ++ "_" ++ bucket)

/-- Delete every ranking cache entry for the given ordering field, for
every listed hub, across all time buckets. -/
def invalidate_ordering_cache (field : String) (hubIds : List Nat) (c : CacheState) :
    CacheState :=
  cacheFilter
    (fun k => !(hubIds.any (fun hub => bucket_names.any (fun b => k == ranking_cache_key hub field b))))
    c

/-- Modelled from the spec: `paper.utils.invalidate_trending_cache` is not
among the source files; per the spec, invalidation enumerates the affected
hubs and deletes the cached ranking entries for the hot ordering for each,
across all time buckets. -/
def invalidate_trending_cache (hubIds : List Nat) (c : CacheState) : CacheState :=
  invalidate_ordering_cache "-hot_score" hubIds c

/-- Modelled from the spec: `paper.utils.invalidate_top_rated_cache`,
absent from the sources; deletes the top-rated ranking entries of the
listed hubs across all buckets. -/
def invalidate_top_rated_cache (hubIds : List Nat) (c : CacheState) : CacheState :=
  invalidate_ordering_cache "-score" hubIds c

/-- Modelled from the spec: `paper.utils.invalidate_newest_cache`, absent
from the sources; deletes the newest ranking entries of the listed hubs
across all buckets. -/
def invalidate_newest_cache (hubIds : List Nat) (c : CacheState) : CacheState :=
  invalidate_ordering_cache "-uploaded_date" hubIds c

/-- Modelled from the spec: `paper.utils.invalidate_most_discussed_cache`,
absent from the sources; deletes the most-discussed ranking entries of the
listed hubs across all buckets. -/
def invalidate_most_discussed_cache (hubIds : List Nat) (c : CacheState) : CacheState :=
  invalidate_ordering_cache "-discussed" hubIds c

/-! ### Ranking query builder (`PaperViewSet.calculate_paper_ordering`) -/

/-- `s <= d <= e`: Django `__range=[s, e]`, an inclusive BETWEEN. -/
def inRange (s e d : Int) : Bool :=
  decide (s ≤ d) && decide (d ≤ e)

/-- The votes on paper `p` whose `updated_date` lies in the window: the
join rows produced by `papers.filter(vote__updated_date__range=[s, e])`. -/
def windowVotes (votes : List Vote) (p : Paper) (s e : Int) : List Vote :=
  votes.filter (fun v => v.paper_id == p.id && inRange s e v.updated_date)

/-- The `score_in_time` annotation: upvotes minus downvotes among the
window votes (the filter preceding the annotation restricts the counted
join rows to the window). -/
def score_in_time (votes : List Vote) (p : Paper) (s e : Int) : Int :=
  (((windowVotes votes p s e).filter (fun v => v.vote_type == VoteType.upvote)).length : Int)
    - (((windowVotes votes p s e).filter (fun v => v.vote_type == VoteType.downvote)).length : Int)

/-- `order_by("-hot_score")`: stored hot score, descending. -/
@[reducible]
def hotRel (a b : Paper) : Prop :=
  b.hot_score ≤ a.hot_score

instance : DecidableRel hotRel := fun x y => inferInstanceAs (Decidable (y.hot_score ≤ x.hot_score))

instance : IsTotal Paper hotRel :=
  ⟨fun a b => (le_total b.hot_score a.hot_score)⟩

instance : IsTrans Paper hotRel :=
  ⟨fun _ _ _ h1 h2 => le_trans h2 h1⟩

/-- `order_by("-uploaded_date")`: upload timestamp, descending. -/
@[reducible]
def newestRel (a b : Paper) : Prop :=
  b.uploaded_date ≤ a.uploaded_date

instance : DecidableRel newestRel := fun x y => inferInstanceAs (Decidable (y.uploaded_date ≤ x.uploaded_date))

instance : IsTotal Paper newestRel :=
  ⟨fun a b => (le_total b.uploaded_date a.uploaded_date)⟩

instance : IsTrans Paper newestRel :=
  ⟨fun _ _ _ h1 h2 => le_trans h2 h1⟩

/-- `order_by("-score_in_time", "-score_all_time")`: window score
descending, ties broken by stored all-time score descending. -/
@[reducible]
def topRatedRel (votes : List Vote) (s e : Int) (a b : Paper) : Prop :=
  score_in_time votes b s e < score_in_time votes a s e ∨
    (score_in_time votes a s e = score_in_time votes b s e ∧ b.score ≤ a.score)

instance (votes : List Vote) (s e : Int) : DecidableRel (topRatedRel votes s e) :=
  fun _ _ => instDecidableOr

instance (votes : List Vote) (s e : Int) : IsTotal Paper (topRatedRel votes s e) where
  total a b := by
    rcases lt_trichotomy (score_in_time votes a s e) (score_in_time votes b s e) with h | h | h
    · exact Or.inr (Or.inl h)
    · rcases le_total b.score a.score with h2 | h2
      · exact Or.inl (Or.inr ⟨h, h2⟩)
      · exact Or.inr (Or.inr ⟨h.symm, h2⟩)
    · exact Or.inl (Or.inl h)

instance (votes : List Vote) (s e : Int) : IsTrans Paper (topRatedRel votes s e) where
  trans a b c h1 h2 := by
    rcases h1 with h1 | ⟨h1e, h1s⟩
    · rcases h2 with h2 | ⟨h2e, _⟩
      · exact Or.inl (lt_trans h2 h1)
      · exact Or.inl (h2e ▸ h1)
    · rcases h2 with h2 | ⟨h2e, h2s⟩
      · exact Or.inl (h1e ▸ h2)
      · exact Or.inr ⟨h1e.trans h2e, le_trans h2s h1s⟩

/-- The join rows behind the `most_discussed` branch: one row per
(thread, comment) pair, and one row with no comment for a commentless
thread (the outer join the ORM builds for the ORed conditions). -/
def discussRows (p : Paper) : List (DiscussionThread × Option DiscussionComment) :=
  p.threads.flatMap (fun t =>
    match t.comments with
    | [] => [(t, none)]
    | cs => cs.map (fun c => (t, some c)))

/-- The WHERE clause of the `most_discussed` branch on one join row:
(thread or comment from researchhub) and (thread or comment created in
the window). -/
def discussRowKeep (s e : Int) (r : DiscussionThread × Option DiscussionComment) : Bool :=
  (r.1.source == "researchhub" ||
      (match r.2 with
       | some c => c.source == "researchhub"
       | none => false))
    && (inRange s e r.1.created_date ||
      (match r.2 with
       | some c => inRange s e c.created_date
       | none => false))

/-- The join rows of `p` surviving the WHERE clause. -/
def keptRows (p : Paper) (s e : Int) : List (DiscussionThread × Option DiscussionComment) :=
  (discussRows p).filter (discussRowKeep s e)

/-- The `discussed` annotation: `Count("threads") + Count("threads__comments")`
over the surviving join rows. -/
def discussedCount (p : Paper) (s e : Int) : Int :=
  ((keptRows p s e).length : Int) + (((keptRows p s e).filter (fun r => r.2.isSome)).length : Int)

/-- `order_by("-discussed", "-discussed_secondary")`: window discussion
count descending, ties broken by stored `discussion_count` descending. -/
@[reducible]
def discussedRel (s e : Int) (a b : Paper) : Prop :=
  discussedCount b s e < discussedCount a s e ∨
    (discussedCount a s e = discussedCount b s e ∧ b.discussion_count ≤ a.discussion_count)

instance (s e : Int) : DecidableRel (discussedRel s e) :=
  fun _ _ => instDecidableOr

instance (s e : Int) : IsTotal Paper (discussedRel s e) where
  total a b := by
    rcases lt_trichotomy (discussedCount a s e) (discussedCount b s e) with h | h | h
    · exact Or.inr (Or.inl h)
    · rcases le_total b.discussion_count a.discussion_count with h2 | h2
      · exact Or.inl (Or.inr ⟨h, h2⟩)
      · exact Or.inr (Or.inr ⟨h.symm, h2⟩)
    · exact Or.inl (Or.inl h)

instance (s e : Int) : IsTrans Paper (discussedRel s e) where
  trans a b c h1 h2 := by
    rcases h1 with h1 | ⟨h1e, h1s⟩
    · rcases h2 with h2 | ⟨h2e, _⟩
      · exact Or.inl (lt_trans h2 h1)
      · exact Or.inl (h2e ▸ h1)
    · rcases h2 with h2 | ⟨h2e, h2s⟩
      · exact Or.inl (h1e ▸ h2)
      · exact Or.inr ⟨h1e.trans h2e, le_trans h2s h1s⟩

/-- `papers.order_by(field)` for the single-field orderings that reach the
plain `order_by` calls in `calculate_paper_ordering`; only the two fields
produced by `_set_hub_paper_ordering` and routed to those calls are
interpreted. -/
def order_by_field (field : String) (papers : List Paper) : List Paper :=
  if field = "-hot_score" then List.insertionSort hotRel papers
  else if field = "-uploaded_date" then List.insertionSort newestRel papers
  else papers

namespace PaperViewSet

/-- `PaperViewSet.calculate_paper_ordering`: branch on substring tests of
the ordering string, exactly as the Python `in` checks do; the `score`
branch filters to papers with a vote in the window and orders by
(window score, all-time score) descending; the `discussed` branch filters
by window discussion activity; `hot_score` and the final fallback are
plain `order_by` calls with no window filter. -/
def calculate_paper_ordering (papers : List Paper) (votes : List Vote)
    (ordering : String) (start_date end_date : Int) : List Paper :=
  if strIn "hot_score" ordering then
    order_by_field ordering papers
  else if strIn "score" ordering then
    List.insertionSort (topRatedRel votes start_date end_date)
      (papers.filter (fun p => !(windowVotes votes p start_date end_date).isEmpty))
  else if strIn "discussed" ordering then
    List.insertionSort (discussedRel start_date end_date)
      (papers.filter (fun p => !(keptRows p start_date end_date).isEmpty))
  else
    order_by_field ordering papers

/-- `PaperViewSet._set_hub_paper_ordering`: translate the request ordering
key into an ordering field string; every unrecognized key (the query
parameter may also be absent) falls to `-score`. -/
def set_hub_paper_ordering (ordering : Option String) : String :=
  if ordering = some "top_rated" then "-score"
  else if ordering = some "most_discussed" then "-discussed"
  else if ordering = some "newest" then "-uploaded_date"
  else if ordering = some "hot" then "-hot_score"
  else "-score"

/-- `PaperViewSet._get_filtered_papers`: hub id 0 is the homepage (no hub
filter); otherwise keep the papers belonging to the hub. -/
def get_filtered_papers (papers : List Paper) (hub_id : Nat) : List Paper :=
  if hub_id = 0 then papers
  else papers.filter (fun p => p.hubs.contains hub_id)

/-- The time-bucket classification inlined in `get_hub_papers`, as a
function of `time_difference.days` (the floor of the window width in
days): strictly more than 365 days is `all_time`, exactly 365 is `year`,
30 or 31 is `month`, 7 is `week`, and everything else is `today`. -/
def bucket_of (days : Int) : String :=
  if days > 365 then "all_time"
  else if days = 365 then "year"
  else if days = 30 ∨ days = 31 then "month"
  else if days = 7 then "week"
  else "today"

/-- The ranking cache key built by `get_hub_papers` from the hub id, the
ordering field and the bucket of the window width. -/
def hub_papers_cache_key (hub_id : Nat) (ordering : String) (days : Int) : String :=
  get_cache_key_hub (toString hub_id ++ "_" ++ ordering ++ "_" ++ bucket_of days)

/-- The page size of the paginator; framework configuration outside the
source slice, and immaterial to the verified claims. -/
def page_size : Nat := 10

/-- Modelled from the spec: the task `paper.tasks.preload_hub_papers` is
not among the source files; per the spec, the cached value is the
serialized first page of the ranking result for the given scope, ordering
and window. -/
def preload_hub_papers (papers : List Paper) (votes : List Vote) (ordering : String)
    (hub_id : Nat) (start_ts end_ts : Int) : List Nat :=
  ((calculate_paper_ordering (get_filtered_papers papers hub_id) votes ordering
      start_ts end_ts).take page_size).map (fun p => p.id)

/-- The outcome of a hub-papers ranking read: the page of paper ids in the
response body, and the cache state after the read. -/
structure ReadResult where
  body : List Nat
  cache : CacheState
deriving DecidableEq, Repr

/-- `PaperViewSet.get_hub_papers`: parse the window timestamps, map the
ordering key, and on page 1 classify the window width into a bucket,
probe the cache with `get_or_set` (timeout 60*40 seconds) and serve a
truthy hit; otherwise (deeper pages, or a falsy hit) compute the page
directly from the query builder. -/
def get_hub_papers (papers : List Paper) (votes : List Vote) (c : CacheState)
    (page_number : Nat) (start_ts end_ts : Int) (ordering_param : Option String)
    (hub_id : Nat) : Except String ReadResult :=
  let ordering := set_hub_paper_ordering ordering_param
  let ordered := calculate_paper_ordering (get_filtered_papers papers hub_id) votes
    ordering start_ts end_ts
  let page_body := ((ordered.drop ((page_number - 1) * page_size)).take page_size).map
    (fun p => p.id)
  if page_number = 1 then
    let days := Int.fdiv (end_ts - start_ts) 86400
    let key := hub_papers_cache_key hub_id ordering days
    match cacheGetOrSet c key (preload_hub_papers papers votes ordering hub_id start_ts end_ts)
        (60 * 40) with
    | Except.error msg => Except.error msg
    | Except.ok (cache_hit, c1) =>
      if cache_hit.isEmpty then Except.ok { body := page_body, cache := c1 }
      else Except.ok { body := cache_hit, cache := c1 }
  else Except.ok { body := page_body, cache := c }

end PaperViewSet

/-! ### Vote table operations (module-level helpers of `paper/views.py`) -/

/-- `find_vote`: truthiness of
`Vote.objects.filter(paper=paper, created_by=user, vote_type=vote_type)`. -/
def find_vote (votes : List Vote) (user : Nat) (paper_id : Nat) (vt : VoteType) : Bool :=
  votes.any (fun v => v.paper_id == paper_id && v.created_by == user && v.vote_type == vt)

/-- `retrieve_vote`: `Vote.objects.get(paper=paper, created_by=user.id)`,
with `DoesNotExist` translated to `None`; with two or more matching rows
`get` raises `MultipleObjectsReturned`, which is not caught. -/
def retrieve_vote (votes : List Vote) (user : Nat) (paper_id : Nat) :
    Except String (Option Vote) :=
  match votes.filter (fun v => v.paper_id == paper_id && v.created_by == user) with
  | [] => Except.ok none
  | [v] => Except.ok (some v)
  | _ => Except.error "MultipleObjectsReturned"

/-- `create_vote`: insert a fresh vote row; `next_id` stands for the
database-assigned primary key and `now` for the auto-set timestamps. -/
def create_vote (user : Nat) (paper_id : Nat) (vt : VoteType) (next_id : Nat)
    (now : Int) : Vote :=
  { id := next_id, created_by := user, paper_id := paper_id, vote_type := vt,
    updated_date := now }

/-- `update_or_create_vote`: if the voter already has a vote on the paper,
set its `vote_type` and save it (which refreshes `updated_date`) and
respond 200; otherwise create a new vote and respond 201.  The analytics
and contribution side effects of the source are outside the modelled
state. -/
def update_or_create_vote (votes : List Vote) (user : Nat) (paper : Paper)
    (vt : VoteType) (next_id : Nat) (now : Int) : Except String (List Vote × Nat) :=
  match retrieve_vote votes user paper.id with
  | Except.error e => Except.error e
  | Except.ok (some _) =>
    Except.ok
      (votes.map (fun v =>
        if v.paper_id == paper.id && v.created_by == user then
          { v with vote_type := vt, updated_date := now }
        else v), 200)
  | Except.ok none =>
    Except.ok (votes ++ [create_vote user paper.id vt next_id now], 201)

/-- The observable outcome of a vote endpoint: the vote table and cache
after the call, the HTTP status, and the error body when one is sent. -/
structure VoteEndpointResult where
  votes : List Vote
  cache : CacheState
  status : Nat
  body : String
deriving DecidableEq, Repr

namespace PaperViewSet

/-- `PaperViewSet.upvote`: reject with 400 when an UPVOTE by this user on
this paper already exists; otherwise update-or-create the vote, then
invalidate the four ranking caches for every hub of the paper and delete
the paper-detail cache entry. -/
def upvote (votes : List Vote) (c : CacheState) (user : Nat) (paper : Paper)
    (next_id : Nat) (now : Int) : Except String VoteEndpointResult :=
  let hub_ids := paper.hubs
  if find_vote votes user paper.id VoteType.upvote then
    Except.ok { votes := votes, cache := c, status := 400,
                body := "This vote already exists" }
  else
    match update_or_create_vote votes user paper VoteType.upvote next_id now with
    | Except.error e => Except.error e
    | Except.ok (votes2, st) =>
      let c1 := invalidate_trending_cache hub_ids c
      let c2 := invalidate_top_rated_cache hub_ids c1
      let c3 := invalidate_newest_cache hub_ids c2
      let c4 := invalidate_most_discussed_cache hub_ids c3
      let c5 := cacheDelete c4 (paper_cache_key paper.id)
      Except.ok { votes := votes2, cache := c5, status := st, body := "" }

/-- `PaperViewSet.downvote`: mirror image of `upvote` for DOWNVOTE. -/
def downvote (votes : List Vote) (c : CacheState) (user : Nat) (paper : Paper)
    (next_id : Nat) (now : Int) : Except String VoteEndpointResult :=
  let hub_ids := paper.hubs
  if find_vote votes user paper.id VoteType.downvote then
    Except.ok { votes := votes, cache := c, status := 400,
                body := "This vote already exists" }
  else
    match update_or_create_vote votes user paper VoteType.downvote next_id now with
    | Except.error e => Except.error e
    | Except.ok (votes2, st) =>
      let c1 := invalidate_trending_cache hub_ids c
      let c2 := invalidate_top_rated_cache hub_ids c1
      let c3 := invalidate_newest_cache hub_ids c2
      let c4 := invalidate_most_discussed_cache hub_ids c3
      let c5 := cacheDelete c4 (paper_cache_key paper.id)
      Except.ok { votes := votes2, cache := c5, status := st, body := "" }

/-- The cache effect of `PaperViewSet.update`: delete the paper-detail
entry, then invalidate the four ranking caches for the hub ids taken from
`request.data.get("hubs", [])` (the request payload, not the hub set of
the stored paper).  The document field update itself is handled by the
framework `super().update` and does not touch the cache. -/
def update (paper : Paper) (payload_hubs : List Nat) (c : CacheState) : CacheState :=
  let c0 := cacheDelete c (paper_cache_key paper.id)
  let c1 := invalidate_trending_cache payload_hubs c0
  let c2 := invalidate_top_rated_cache payload_hubs c1
  let c3 := invalidate_newest_cache payload_hubs c2
  invalidate_most_discussed_cache payload_hubs c3

end PaperViewSet

/-! ### Vote-triggered score sync
(`researchhub_document/signals/researchhub_unified_document_signals.py`) -/

/-- The unified document rows touched by `sync_scores`: the stored score
and hot score projections. -/
structure UnifiedDocument where
  id : Nat
  score : Int
  hot_score : Int
deriving DecidableEq, Repr

/-- `sync_scores(unified_doc, document_obj)`: compare the freshly computed
score and hot score (the results of `document_obj.calculate_score()` and
`document_obj.calculate_hot_score()`, passed here as arguments since those
methods live outside the source slice and are deterministic in the vote
state) against the stored fields, and save only when one differs.
Returns the document and whether `save` ran. -/
def sync_scores (computed_score computed_hot : Int) (doc : UnifiedDocument) :
    UnifiedDocument × Bool :=
  let should_save := false
  let step1 :=
    if doc.hot_score ≠ computed_hot then
      ({ doc with hot_score := computed_hot }, true)
    else (doc, should_save)
  let step2 :=
    if step1.1.score ≠ computed_score then
      ({ step1.1 with score := computed_score }, true)
    else step1
  step2

/-! ### Generic cache lemmas -/

/-- A key is absent exactly when no entry carries it. -/
theorem cacheLookup_none_iff (c : CacheState) (k : String) :
    cacheLookup c k = none ↔ ∀ kv ∈ c.entries, kv.1 ≠ k := by
  simp [cacheLookup, List.find?_eq_none]

/-- Filtering entries never resurrects an absent key. -/
theorem cacheLookup_cacheFilter_of_none (q : String → Bool) {c : CacheState} {k : String}
    (h : cacheLookup c k = none) : cacheLookup (cacheFilter q c) k = none := by
  rw [cacheLookup_none_iff] at h ⊢
  intro kv hkv
  exact h kv (List.mem_of_mem_filter hkv)

/-- A key rejected by the filter predicate is absent afterwards. -/
theorem cacheLookup_cacheFilter_of_false {q : String → Bool} {k : String} (c : CacheState)
    (hq : q k = false) : cacheLookup (cacheFilter q c) k = none := by
  rw [cacheLookup_none_iff]
  intro kv hkv hk
  have hmem := List.of_mem_filter hkv
  rw [hk, hq] at hmem
  exact Bool.false_ne_true hmem

/-- Bulk invalidation removes the ranking key of every listed hub, for its
own ordering field, in every bucket. -/
theorem cacheLookup_invalidate_hit {hubIds : List Nat} {hub : Nat} {b : String}
    (field : String) (c : CacheState) (hhub : hub ∈ hubIds) (hb : b ∈ bucket_names) :
    cacheLookup (invalidate_ordering_cache field hubIds c)
      (ranking_cache_key hub field b) = none := by
  apply cacheLookup_cacheFilter_of_false
  simp only [Bool.not_eq_false', List.any_eq_true]
  exact ⟨hub, hhub, b, hb, by simp⟩

/-- Bulk invalidation never resurrects an absent key. -/
theorem cacheLookup_invalidate_of_none (field : String) (hubIds : List Nat)
    {c : CacheState} {k : String} (h : cacheLookup c k = none) :
    cacheLookup (invalidate_ordering_cache field hubIds c) k = none :=
  cacheLookup_cacheFilter_of_none _ h

/-- After the four invalidation calls of the vote endpoints, every ranking
cache key of every listed hub is absent, for all four ordering fields and
all buckets. -/
theorem lookup_after_invalidations (hubIds : List Nat) (c : CacheState) :
    ∀ hub ∈ hubIds, ∀ f ∈ ordering_fields, ∀ b ∈ bucket_names,
      cacheLookup
        (invalidate_most_discussed_cache hubIds
          (invalidate_newest_cache hubIds
            (invalidate_top_rated_cache hubIds
              (invalidate_trending_cache hubIds c))))
        (ranking_cache_key hub f b) = none := by
  intro hub hhub f hf b hb
  unfold invalidate_most_discussed_cache invalidate_newest_cache
    invalidate_top_rated_cache invalidate_trending_cache
  simp only [ordering_fields, List.mem_cons, List.not_mem_nil, or_false] at hf
  rcases hf with rfl | rfl | rfl | rfl
  · exact cacheLookup_invalidate_of_none _ _
      (cacheLookup_invalidate_of_none _ _
        (cacheLookup_invalidate_of_none _ _
          (cacheLookup_invalidate_hit _ _ hhub hb)))
  · exact cacheLookup_invalidate_of_none _ _
      (cacheLookup_invalidate_of_none _ _
        (cacheLookup_invalidate_hit _ _ hhub hb))
  · exact cacheLookup_invalidate_of_none _ _
      (cacheLookup_invalidate_hit _ _ hhub hb)
  · exact cacheLookup_invalidate_hit _ _ hhub hb

/-! ### Concrete fixtures used by counterexamples and witnesses -/

/-- A paper with a large stored all-time score and no votes. -/
def paperHighScore : Paper :=
  { id := 1, score := 10, hot_score := 3, discussion_count := 0,
    uploaded_date := 100, hubs := [1], threads := [] }

/-- A paper with a small stored all-time score. -/
def paperLowScore : Paper :=
  { id := 2, score := 1, hot_score := 9, discussion_count := 0,
    uploaded_date := 200, hubs := [1], threads := [] }

/-- An upvote on `paperLowScore` with `updated_date` 5. -/
def voteOnLow : Vote :=
  { id := 1, created_by := 7, paper_id := 2, vote_type := VoteType.upvote,
    updated_date := 5 }

/-- An empty, healthy cache. -/
def emptyCache : CacheState := { entries := [], errOnGet := false }

/-- A healthy cache holding one ranking entry for hub 1, hot ordering,
bucket today. -/
def cacheWithHubOneEntry : CacheState :=
  { entries := [(ranking_cache_key 1 "-hot_score" "today", [42], 2400)],
    errOnGet := false }

/-- A cache whose backend raises on `get`. -/
def erroringCache : CacheState := { entries := [], errOnGet := true }

/-- The ordering the claim describes for the fallback and for degenerate
windows: documents ordered by stored all-time score, descending
(spec-side definition, for comparison with the code). -/
def allTimeScoreOrdering (papers : List Paper) : List Paper :=
  List.insertionSort (fun a b => b.score ≤ a.score) papers

/-! ### C1: bucket classification -/

/-- C1 counterexample: a window 366 days wide is classified `all_time`,
not the default `today` bucket the claim asserts for widths greater than
365 days. -/
theorem bucket_wide_window_cex :
    PaperViewSet.bucket_of 366 = "all_time" ∧ PaperViewSet.bucket_of 366 ≠ "today" := by
  constructor
  · rfl
  · decide

/-- C1 (amended): the bucket is a deterministic function of the window
width alone; exactly 365 days is `year`, 30 or 31 days is `month`, 7 days
is `week`, widths strictly greater than 365 days are `all_time`, and every
other width is `today`. -/
theorem bucket_classification_correct :
    ∀ days : Int,
      (days = 365 → PaperViewSet.bucket_of days = "year") ∧
      (days = 30 ∨ days = 31 → PaperViewSet.bucket_of days = "month") ∧
      (days = 7 → PaperViewSet.bucket_of days = "week") ∧
      (days > 365 → PaperViewSet.bucket_of days = "all_time") ∧
      (days < 365 ∧ days ≠ 30 ∧ days ≠ 31 ∧ days ≠ 7 →
        PaperViewSet.bucket_of days = "today") := by
  intro days
  refine ⟨fun h => ?_, fun h => ?_, fun h => ?_, fun h => ?_, fun h => ?_⟩
  · subst h; rfl
  · rcases h with h | h <;> subst h <;> rfl
  · subst h; rfl
  · unfold PaperViewSet.bucket_of
    rw [if_pos h]
  · unfold PaperViewSet.bucket_of
    rw [if_neg (by omega), if_neg (by omega), if_neg (by omega), if_neg (by omega)]

/-- C1 witness: the amended classification at width 365. -/
theorem bucket_classification_correct_witness :
    PaperViewSet.bucket_of 365 = "year" :=
  (bucket_classification_correct 365).1 rfl

/-! ### C9: ordering key dispatch -/

/-- C9 counterexample: the uppercase variant `HOT` is not given the same
ordering as `hot`; it falls to the default. -/
theorem ordering_case_sensitivity_cex :
    PaperViewSet.set_hub_paper_ordering (some "HOT") = "-score" ∧
    PaperViewSet.set_hub_paper_ordering (some "HOT") ≠
      PaperViewSet.set_hub_paper_ordering (some "hot") := by
  constructor
  · rfl
  · decide

/-- C9 (amended): the ordering keys are matched case-sensitively against
the exact lowercase strings; every other value of the parameter, casing
variants included, falls to the default `-score` ordering field. -/
theorem ordering_key_dispatch :
    PaperViewSet.set_hub_paper_ordering (some "hot") = "-hot_score" ∧
    PaperViewSet.set_hub_paper_ordering (some "top_rated") = "-score" ∧
    PaperViewSet.set_hub_paper_ordering (some "most_discussed") = "-discussed" ∧
    PaperViewSet.set_hub_paper_ordering (some "newest") = "-uploaded_date" ∧
    ∀ key : Option String, key ≠ some "top_rated" → key ≠ some "most_discussed" →
      key ≠ some "newest" → key ≠ some "hot" →
      PaperViewSet.set_hub_paper_ordering key = "-score" := by
  refine ⟨rfl, rfl, rfl, rfl, fun key h1 h2 h3 h4 => ?_⟩
  unfold PaperViewSet.set_hub_paper_ordering
  rw [if_neg h1, if_neg h2, if_neg h3, if_neg h4]

/-- C9 witness: the amended dispatch at the concrete key `HOT`. -/
theorem ordering_key_dispatch_witness :
    PaperViewSet.set_hub_paper_ordering (some "HOT") = "-score" :=
  ordering_key_dispatch.2.2.2.2 (some "HOT") (by decide) (by decide) (by decide) (by decide)

/-! ### C5: score sync writes only on change -/

/-- C5: `sync_scores` leaves the stored fields equal to the computed
values, saves exactly when one of them differed, performs no write and no
change when both already match, and a second run on the result never
writes. -/
theorem sync_scores_idempotent_save :
    ∀ (s h : Int) (d : UnifiedDocument),
      (sync_scores s h d).1 = { d with score := s, hot_score := h } ∧
      (sync_scores s h d).2 = (decide (d.score ≠ s) || decide (d.hot_score ≠ h)) ∧
      (d.score = s ∧ d.hot_score = h →
        (sync_scores s h d).1 = d ∧ (sync_scores s h d).2 = false) ∧
      sync_scores s h (sync_scores s h d).1 = ((sync_scores s h d).1, false) := by
  intro s h d
  by_cases h1 : d.hot_score = h <;> by_cases h2 : d.score = s <;>
      simp [sync_scores, h1, h2]
  subst h1
  subst h2
  rfl


/-- C5 witness: a document whose stored values already match is neither
changed nor saved. -/
theorem sync_scores_idempotent_save_witness :
    (sync_scores 4 6 { id := 1, score := 4, hot_score := 6 }).1 =
        { id := 1, score := 4, hot_score := 6 } ∧
      (sync_scores 4 6 { id := 1, score := 4, hot_score := 6 }).2 = false :=
  (sync_scores_idempotent_save 4 6 { id := 1, score := 4, hot_score := 6 }).2.2.1
    ⟨rfl, rfl⟩

/-! ### Lemmas on the ranking read -/

/-- With a healthy backend, `get_or_set` always succeeds. -/
theorem cacheGetOrSet_ok (entries : List (String × List Nat × Nat)) (k : String)
    (compute : List Nat) (ttl : Nat) :
    ∃ p, cacheGetOrSet ⟨entries, false⟩ k compute ttl = Except.ok p := by
  unfold cacheGetOrSet
  cases h : cacheLookup ⟨entries, false⟩ k with
  | some v => exact ⟨(v, ⟨entries, false⟩), by simp [h]⟩
  | none => exact ⟨(compute, cacheSet ⟨entries, false⟩ k compute ttl), by simp [h]⟩

/-- With a healthy backend, a ranking read always returns a response. -/
theorem get_hub_papers_no_error (papers : List Paper) (votes : List Vote)
    (entries : List (String × List Nat × Nat)) (page_number : Nat) (s e : Int)
    (op : Option String) (hub : Nat) :
    ∃ r, PaperViewSet.get_hub_papers papers votes ⟨entries, false⟩ page_number s e op hub =
      Except.ok r := by
  unfold PaperViewSet.get_hub_papers
  by_cases hpn : page_number = 1
  · subst hpn
    obtain ⟨⟨hit, c1⟩, hp⟩ := cacheGetOrSet_ok entries
      (PaperViewSet.hub_papers_cache_key hub (PaperViewSet.set_hub_paper_ordering op)
        (Int.fdiv (e - s) 86400))
      (PaperViewSet.preload_hub_papers papers votes
        (PaperViewSet.set_hub_paper_ordering op) hub s e)
      (60 * 40)
    simp only [if_pos rfl, hp]
    by_cases hie : hit.isEmpty = true
    · rw [if_pos hie]
      exact ⟨_, rfl⟩
    · rw [if_neg hie]
      exact ⟨_, rfl⟩
  · rw [if_neg hpn]
    exact ⟨_, rfl⟩

/-- On a miss with a healthy backend, a page-1 ranking read returns the
freshly computed first page and stores it at the ranking key with timeout
`60 * 40`. -/
theorem get_hub_papers_miss_eq (papers : List Paper) (votes : List Vote)
    (entries : List (String × List Nat × Nat)) (s e : Int) (op : Option String)
    (hub : Nat)
    (h : cacheLookup ⟨entries, false⟩
      (PaperViewSet.hub_papers_cache_key hub (PaperViewSet.set_hub_paper_ordering op)
        (Int.fdiv (e - s) 86400)) = none) :
    PaperViewSet.get_hub_papers papers votes ⟨entries, false⟩ 1 s e op hub =
      Except.ok
        { body := PaperViewSet.preload_hub_papers papers votes
            (PaperViewSet.set_hub_paper_ordering op) hub s e,
          cache := cacheSet ⟨entries, false⟩
            (PaperViewSet.hub_papers_cache_key hub (PaperViewSet.set_hub_paper_ordering op)
              (Int.fdiv (e - s) 86400))
            (PaperViewSet.preload_hub_papers papers votes
              (PaperViewSet.set_hub_paper_ordering op) hub s e)
            (60 * 40) } := by
  unfold PaperViewSet.get_hub_papers
  simp only [if_pos rfl]
  unfold cacheGetOrSet
  simp only [h]
  by_cases hie : (PaperViewSet.preload_hub_papers papers votes
      (PaperViewSet.set_hub_paper_ordering op) hub s e).isEmpty
  · simp only [hie, if_true]
    unfold PaperViewSet.preload_hub_papers
    simp [List.drop_zero]
  · simp [hie]

/-- A freshly set entry is found with its ttl. -/
theorem cacheTTLOf_cacheSet (c : CacheState) (k : String) (v : List Nat) (ttl : Nat) :
    cacheTTLOf (cacheSet c k v ttl) k = some ttl := by
  simp [cacheTTLOf, cacheSet, List.find?_cons_of_pos]

/-! ### C7: cache failure semantics of the ranking read -/

/-- C7 counterexample: with a cache backend that raises on `get`, the
ranking read propagates the error instead of falling through to a direct
computation. -/
theorem cache_error_fails_read_cex :
    PaperViewSet.get_hub_papers [paperHighScore] [] erroringCache 1 0 10 (some "hot") 0 =
      Except.error "cache backend error" := rfl

/-- C7 (amended): a cache-backend error on `get` propagates and fails the
ranking read; the graceful path exists only for a miss: with a healthy
backend and no entry at the ranking key, the read returns the freshly
computed first page and repopulates the cache at that key. -/
theorem cache_miss_falls_through :
    ∀ (papers : List Paper) (votes : List Vote)
      (entries : List (String × List Nat × Nat)) (s e : Int) (op : Option String)
      (hub : Nat),
      cacheLookup ⟨entries, false⟩
          (PaperViewSet.hub_papers_cache_key hub (PaperViewSet.set_hub_paper_ordering op)
            (Int.fdiv (e - s) 86400)) = none →
      PaperViewSet.get_hub_papers papers votes ⟨entries, false⟩ 1 s e op hub =
        Except.ok
          { body := PaperViewSet.preload_hub_papers papers votes
              (PaperViewSet.set_hub_paper_ordering op) hub s e,
            cache := cacheSet ⟨entries, false⟩
              (PaperViewSet.hub_papers_cache_key hub
                (PaperViewSet.set_hub_paper_ordering op) (Int.fdiv (e - s) 86400))
              (PaperViewSet.preload_hub_papers papers votes
                (PaperViewSet.set_hub_paper_ordering op) hub s e)
              (60 * 40) } :=
  fun papers votes entries s e op hub h =>
    get_hub_papers_miss_eq papers votes entries s e op hub h

/-- C7 witness: the miss path at a concrete read. -/
theorem cache_miss_falls_through_witness :
    PaperViewSet.get_hub_papers [paperHighScore] [] ⟨[], false⟩ 1 0 10 (some "hot") 0 =
      Except.ok
        { body := PaperViewSet.preload_hub_papers [paperHighScore] []
            (PaperViewSet.set_hub_paper_ordering (some "hot")) 0 0 10,
          cache := cacheSet ⟨[], false⟩
            (PaperViewSet.hub_papers_cache_key 0
              (PaperViewSet.set_hub_paper_ordering (some "hot")) (Int.fdiv (10 - 0) 86400))
            (PaperViewSet.preload_hub_papers [paperHighScore] []
              (PaperViewSet.set_hub_paper_ordering (some "hot")) 0 0 10)
            (60 * 40) } :=
  cache_miss_falls_through [paperHighScore] [] [] 0 10 (some "hot") 0 rfl

/-! ### C8: ranking cache ttl -/

/-- C8 counterexample: the entry written by a concrete ranking read
carries timeout `60 * 40` seconds (40 minutes), which is not the 7 days
the claim asserts. -/
theorem ranking_cache_ttl_cex :
    (PaperViewSet.get_hub_papers [paperHighScore] [] emptyCache 1 0 10
          (some "hot") 0).toOption.map
        (fun r => cacheTTLOf r.cache (PaperViewSet.hub_papers_cache_key 0 "-hot_score" 0)) =
      some (some (60 * 40)) ∧
    (60 * 40 : Nat) ≠ 7 * 24 * 60 * 60 := by
  exact ⟨rfl, by decide⟩

/-- C8 (amended): every ranking cache entry written by a page-1 hub-papers
read is stored with a fixed timeout of `60 * 40` seconds (40 minutes). -/
theorem ranking_cache_ttl_forty_minutes :
    ∀ (papers : List Paper) (votes : List Vote)
      (entries : List (String × List Nat × Nat)) (s e : Int) (op : Option String)
      (hub : Nat) (r : PaperViewSet.ReadResult),
      cacheLookup ⟨entries, false⟩
          (PaperViewSet.hub_papers_cache_key hub (PaperViewSet.set_hub_paper_ordering op)
            (Int.fdiv (e - s) 86400)) = none →
      PaperViewSet.get_hub_papers papers votes ⟨entries, false⟩ 1 s e op hub =
        Except.ok r →
      cacheTTLOf r.cache
          (PaperViewSet.hub_papers_cache_key hub (PaperViewSet.set_hub_paper_ordering op)
            (Int.fdiv (e - s) 86400)) = some (60 * 40) := by
  intro papers votes entries s e op hub r h hr
  rw [get_hub_papers_miss_eq papers votes entries s e op hub h] at hr
  injection hr with hr
  rw [← hr]
  exact cacheTTLOf_cacheSet _ _ _ _

/-- C8 witness: the ttl property at a concrete read. -/
theorem ranking_cache_ttl_forty_minutes_witness :
    cacheTTLOf
        (cacheSet ⟨[], false⟩
          (PaperViewSet.hub_papers_cache_key 0
            (PaperViewSet.set_hub_paper_ordering (some "hot")) (Int.fdiv (10 - 0) 86400))
          (PaperViewSet.preload_hub_papers [paperHighScore] []
            (PaperViewSet.set_hub_paper_ordering (some "hot")) 0 0 10)
          (60 * 40))
        (PaperViewSet.hub_papers_cache_key 0
          (PaperViewSet.set_hub_paper_ordering (some "hot")) (Int.fdiv (10 - 0) 86400)) =
      some (60 * 40) :=
  ranking_cache_ttl_forty_minutes [paperHighScore] [] [] 0 10 (some "hot") 0
    _ rfl rfl

/-! ### C2: fallback ordering for unrecognized keys -/

/-- C2 counterexample: with an unrecognized ordering key, the pipeline
does not order by all-time score descending: a paper with the highest
all-time score but no vote inside the window is dropped entirely, while
the all-time ordering would list it first. -/
theorem fallback_ordering_cex :
    PaperViewSet.calculate_paper_ordering [paperHighScore, paperLowScore] [voteOnLow]
        (PaperViewSet.set_hub_paper_ordering (some "unknown_key")) 0 10 ≠
      allTimeScoreOrdering [paperHighScore, paperLowScore] ∧
    PaperViewSet.calculate_paper_ordering [paperHighScore, paperLowScore] [voteOnLow]
        (PaperViewSet.set_hub_paper_ordering (some "unknown_key")) 0 10 =
      [paperLowScore] ∧
    allTimeScoreOrdering [paperHighScore, paperLowScore] =
      [paperHighScore, paperLowScore] := by
  refine ⟨by decide, rfl, rfl⟩

/-- C2 (amended): every unrecognized ordering key is mapped to `-score`,
so the fallback applies exactly the window-restricted top-rated ordering:
the result coincides with the `top_rated` result, and every returned paper
has at least one vote whose `updated_date` lies inside the window. -/
theorem fallback_ordering_is_top_rated :
    ∀ (key : Option String),
      key ≠ some "top_rated" → key ≠ some "most_discussed" → key ≠ some "newest" →
      key ≠ some "hot" →
      ∀ (papers : List Paper) (votes : List Vote) (s e : Int),
        PaperViewSet.calculate_paper_ordering papers votes
            (PaperViewSet.set_hub_paper_ordering key) s e =
          PaperViewSet.calculate_paper_ordering papers votes
            (PaperViewSet.set_hub_paper_ordering (some "top_rated")) s e ∧
        ∀ p ∈ PaperViewSet.calculate_paper_ordering papers votes
            (PaperViewSet.set_hub_paper_ordering key) s e,
          ∃ v ∈ votes, v.paper_id = p.id ∧ s ≤ v.updated_date ∧ v.updated_date ≤ e := by
  intro key h1 h2 h3 h4 papers votes s e
  have hset : PaperViewSet.set_hub_paper_ordering key = "-score" := by
    unfold PaperViewSet.set_hub_paper_ordering
    rw [if_neg h1, if_neg h2, if_neg h3, if_neg h4]
  rw [hset]
  refine ⟨rfl, ?_⟩
  intro p hp
  unfold PaperViewSet.calculate_paper_ordering at hp
  rw [if_neg (by decide), if_pos (by decide)] at hp
  rw [List.mem_insertionSort] at hp
  have hpred := List.of_mem_filter hp
  rw [Bool.not_eq_true'] at hpred
  have hne : windowVotes votes p s e ≠ [] := by
    intro hnil
    rw [hnil] at hpred
    simp at hpred
  obtain ⟨v, hv⟩ := List.exists_mem_of_ne_nil _ hne
  refine ⟨v, ?_⟩
  unfold windowVotes at hv
  have hvv := List.mem_filter.mp hv
  obtain ⟨hvin, hq⟩ := hvv
  simp only [Bool.and_eq_true, beq_iff_eq, inRange, decide_eq_true_eq] at hq
  exact ⟨hvin, hq.1, hq.2.1, hq.2.2⟩

/-- C2 witness: the amended fallback at a concrete unrecognized key. -/
theorem fallback_ordering_is_top_rated_witness :
    PaperViewSet.calculate_paper_ordering [paperLowScore] [voteOnLow]
        (PaperViewSet.set_hub_paper_ordering (some "unknown_key")) 0 10 =
      PaperViewSet.calculate_paper_ordering [paperLowScore] [voteOnLow]
        (PaperViewSet.set_hub_paper_ordering (some "top_rated")) 0 10 :=
  (fallback_ordering_is_top_rated (some "unknown_key") (by decide) (by decide)
    (by decide) (by decide) [paperLowScore] [voteOnLow] 0 10).1

/-! ### C3: zero-width windows -/

/-- A paper with one vote at time 5, for the zero-width counterexample. -/
def paperWithVote : Paper :=
  { id := 3, score := 5, hot_score := 2, discussion_count := 0,
    uploaded_date := 50, hubs := [1], threads := [] }

/-- A vote on `paperWithVote` with `updated_date` 5. -/
def voteAtFive : Vote :=
  { id := 2, created_by := 8, paper_id := 3, vote_type := VoteType.upvote,
    updated_date := 5 }

/-- C3 counterexample: with the zero-width window [3, 3], the `top_rated`
ordering does not degenerate to the all-time ordering: the only paper has
its single vote at time 5, so the window filter drops it and the result is
empty, while the all-time ordering would return it. -/
theorem zero_width_window_cex :
    PaperViewSet.calculate_paper_ordering [paperWithVote] [voteAtFive]
        (PaperViewSet.set_hub_paper_ordering (some "top_rated")) 3 3 = [] ∧
    allTimeScoreOrdering [paperWithVote] = [paperWithVote] ∧
    PaperViewSet.calculate_paper_ordering [paperWithVote] [voteAtFive]
        (PaperViewSet.set_hub_paper_ordering (some "top_rated")) 3 3 ≠
      allTimeScoreOrdering [paperWithVote] := by
  refine ⟨rfl, rfl, by decide⟩

/-- C3 (amended): a zero-width window never errors (with a healthy cache
backend a ranking read returns a response), and `newest` ignores the
window entirely (the result is a permutation of the input, sorted by
upload date descending); but `top_rated` does not degenerate to all-time
ordering: every paper it returns has a vote whose `updated_date` is
exactly the window point, and `most_discussed` likewise keeps no paper
without discussion threads. -/
theorem zero_width_window_behavior :
    ∀ (papers : List Paper) (votes : List Vote) (t : Int),
      (∀ (entries : List (String × List Nat × Nat)) (page_number : Nat)
          (op : Option String) (hub : Nat),
        ∃ r, PaperViewSet.get_hub_papers papers votes ⟨entries, false⟩ page_number t t
          op hub = Except.ok r) ∧
      (PaperViewSet.calculate_paper_ordering papers votes "-uploaded_date" t t).Perm
        papers ∧
      List.Sorted newestRel
        (PaperViewSet.calculate_paper_ordering papers votes "-uploaded_date" t t) ∧
      (∀ p ∈ PaperViewSet.calculate_paper_ordering papers votes "-score" t t,
        ∃ v ∈ votes, v.paper_id = p.id ∧ v.updated_date = t) ∧
      (∀ p : Paper, p.threads = [] →
        p ∉ PaperViewSet.calculate_paper_ordering papers votes "-discussed" t t) := by
  intro papers votes t
  have hnewest : PaperViewSet.calculate_paper_ordering papers votes "-uploaded_date" t t =
      List.insertionSort newestRel papers := by
    unfold PaperViewSet.calculate_paper_ordering
    rw [if_neg (by decide), if_neg (by decide), if_neg (by decide)]
    unfold order_by_field
    rw [if_neg (by decide), if_pos rfl]
  refine ⟨?_, ?_, ?_, ?_, ?_⟩
  · intro entries page_number op hub
    exact get_hub_papers_no_error papers votes entries page_number t t op hub
  · rw [hnewest]
    exact List.perm_insertionSort newestRel papers
  · rw [hnewest]
    exact List.sorted_insertionSort newestRel papers
  · intro p hp
    unfold PaperViewSet.calculate_paper_ordering at hp
    rw [if_neg (by decide), if_pos (by decide)] at hp
    rw [List.mem_insertionSort] at hp
    have hpred := List.of_mem_filter hp
    rw [Bool.not_eq_true'] at hpred
    have hne : windowVotes votes p t t ≠ [] := by
      intro hnil
      rw [hnil] at hpred
      simp at hpred
    obtain ⟨v, hv⟩ := List.exists_mem_of_ne_nil _ hne
    refine ⟨v, ?_⟩
    unfold windowVotes at hv
    obtain ⟨hvin, hq⟩ := List.mem_filter.mp hv
    simp only [Bool.and_eq_true, beq_iff_eq, inRange, decide_eq_true_eq] at hq
    exact ⟨hvin, hq.1, le_antisymm hq.2.2 hq.2.1⟩
  · intro p hthreads hp
    unfold PaperViewSet.calculate_paper_ordering at hp
    rw [if_neg (by decide), if_neg (by decide), if_pos (by decide)] at hp
    rw [List.mem_insertionSort] at hp
    have hpred := List.of_mem_filter hp
    simp [keptRows, discussRows, hthreads] at hpred

/-- C3 witness: the amended behavior at a concrete zero-width read. -/
theorem zero_width_window_behavior_witness :
    ∃ r, PaperViewSet.get_hub_papers [paperWithVote] [voteAtFive] ⟨[], false⟩ 1 3 3
      (some "newest") 0 = Except.ok r :=
  (zero_width_window_behavior [paperWithVote] [voteAtFive] 3).1 [] 1 (some "newest") 0

/-! ### C10: duplicate votes are rejected without side effects -/

/-- C10: when the voter already has a vote of the requested type, the
endpoint answers 400 with the body `This vote already exists` and leaves
both the vote table and the cache exactly as they were. -/
theorem duplicate_vote_rejected :
    ∀ (votes : List Vote) (c : CacheState) (user : Nat) (paper : Paper)
      (next_id : Nat) (now : Int),
      (find_vote votes user paper.id VoteType.upvote = true →
        PaperViewSet.upvote votes c user paper next_id now =
          Except.ok { votes := votes, cache := c, status := 400,
                      body := "This vote already exists" }) ∧
      (find_vote votes user paper.id VoteType.downvote = true →
        PaperViewSet.downvote votes c user paper next_id now =
          Except.ok { votes := votes, cache := c, status := 400,
                      body := "This vote already exists" }) := by
  intro votes c user paper next_id now
  constructor
  · intro h
    unfold PaperViewSet.upvote
    simp only [h, if_true]
  · intro h
    unfold PaperViewSet.downvote
    simp only [h, if_true]

/-- C10 witness: a concrete duplicate upvote is rejected unchanged. -/
theorem duplicate_vote_rejected_witness :
    PaperViewSet.upvote [voteOnLow] emptyCache 7 paperLowScore 5 99 =
      Except.ok { votes := [voteOnLow], cache := emptyCache, status := 400,
                  body := "This vote already exists" } :=
  (duplicate_vote_rejected [voteOnLow] emptyCache 7 paperLowScore 5 99).1 (by decide)

/-! ### C4: cache invalidation scope of votes and updates -/

/-- C4 counterexample: an update whose request payload carries no hubs
invalidates nothing; the ranking entry of the hub the paper belongs to
survives the update, although the claim requires it gone. -/
theorem update_invalidation_cex :
    paperLowScore.hubs = [1] ∧
    cacheLookup (PaperViewSet.update paperLowScore [] cacheWithHubOneEntry)
        (ranking_cache_key 1 "-hot_score" "today") = some [42] :=
  ⟨rfl, rfl⟩

/-- C4 (amended): a successful non-rejected vote write deletes every
ranking cache entry (all four ordering fields, all buckets) of every hub
the paper belongs to; a document update deletes those entries only for
the hub ids carried in the request payload, which need not cover the hubs
the paper belongs to. -/
theorem invalidation_on_vote_and_update :
    (∀ (votes : List Vote) (c : CacheState) (user : Nat) (paper : Paper)
        (next_id : Nat) (now : Int) (r : VoteEndpointResult),
      PaperViewSet.upvote votes c user paper next_id now = Except.ok r →
      r.status ≠ 400 →
      ∀ hub ∈ paper.hubs, ∀ f ∈ ordering_fields, ∀ b ∈ bucket_names,
        cacheLookup r.cache (ranking_cache_key hub f b) = none) ∧
    (∀ (votes : List Vote) (c : CacheState) (user : Nat) (paper : Paper)
        (next_id : Nat) (now : Int) (r : VoteEndpointResult),
      PaperViewSet.downvote votes c user paper next_id now = Except.ok r →
      r.status ≠ 400 →
      ∀ hub ∈ paper.hubs, ∀ f ∈ ordering_fields, ∀ b ∈ bucket_names,
        cacheLookup r.cache (ranking_cache_key hub f b) = none) ∧
    (∀ (paper : Paper) (payload_hubs : List Nat) (c : CacheState),
      ∀ hub ∈ payload_hubs, ∀ f ∈ ordering_fields, ∀ b ∈ bucket_names,
        cacheLookup (PaperViewSet.update paper payload_hubs c)
          (ranking_cache_key hub f b) = none) := by
  refine ⟨?_, ?_, ?_⟩
  · intro votes c user paper next_id now r h hst hub hhub f hf b hb
    unfold PaperViewSet.upvote at h
    by_cases hfv : find_vote votes user paper.id VoteType.upvote = true
    · rw [if_pos hfv] at h
      injection h with h2
      rw [← h2] at hst
      exact absurd rfl hst
    · rw [if_neg hfv] at h
      cases hm : update_or_create_vote votes user paper VoteType.upvote next_id now with
      | error e =>
        rw [hm] at h
        exact absurd h (by simp)
      | ok p =>
        obtain ⟨votes2, st⟩ := p
        rw [hm] at h
        injection h with h2
        rw [← h2]
        apply cacheLookup_cacheFilter_of_none
        exact lookup_after_invalidations paper.hubs c hub hhub f hf b hb
  · intro votes c user paper next_id now r h hst hub hhub f hf b hb
    unfold PaperViewSet.downvote at h
    by_cases hfv : find_vote votes user paper.id VoteType.downvote = true
    · rw [if_pos hfv] at h
      injection h with h2
      rw [← h2] at hst
      exact absurd rfl hst
    · rw [if_neg hfv] at h
      cases hm : update_or_create_vote votes user paper VoteType.downvote next_id now with
      | error e =>
        rw [hm] at h
        exact absurd h (by simp)
      | ok p =>
        obtain ⟨votes2, st⟩ := p
        rw [hm] at h
        injection h with h2
        rw [← h2]
        apply cacheLookup_cacheFilter_of_none
        exact lookup_after_invalidations paper.hubs c hub hhub f hf b hb
  · intro paper payload_hubs c hub hhub f hf b hb
    exact lookup_after_invalidations payload_hubs
      (cacheDelete c (paper_cache_key paper.id)) hub hhub f hf b hb

/-- C4 witness: a concrete update carrying hub 1 in its payload does
delete the ranking entry of hub 1. -/
theorem invalidation_on_vote_and_update_witness :
    cacheLookup (PaperViewSet.update paperLowScore [1] cacheWithHubOneEntry)
        (ranking_cache_key 1 "-hot_score" "today") = none :=
  invalidation_on_vote_and_update.2.2 paperLowScore [1] cacheWithHubOneEntry 1
    (by decide) "-hot_score" (by decide) "today" (by decide)

/-! ### C6: at most one vote per (voter, paper) -/

/-- Whether two vote rows belong to the same (voter, paper) pair. -/
def voteKeyEq (a b : Vote) : Bool :=
  a.created_by == b.created_by && a.paper_id == b.paper_id

/-- The uniqueness invariant: no two rows of the vote table share their
(voter, paper) pair. -/
def atMostOnePerPair (votes : List Vote) : Prop :=
  List.Pairwise (fun a b => voteKeyEq a b = false) votes

/-- A downvote by user 7 on `paperLowScore`, for flipping in place. -/
def voteDownOnLow : Vote :=
  { id := 3, created_by := 7, paper_id := 2, vote_type := VoteType.downvote,
    updated_date := 1 }

/-- Under the invariant, at most one row matches a (voter, paper) filter. -/
theorem filter_key_len_le_one (user pid : Nat) :
    ∀ votes : List Vote, atMostOnePerPair votes →
      (votes.filter (fun v => v.paper_id == pid && v.created_by == user)).length ≤ 1 := by
  intro votes
  induction votes with
  | nil =>
    intro _
    simp
  | cons a l ih =>
    intro hpw
    rw [atMostOnePerPair, List.pairwise_cons] at hpw
    obtain ⟨h1, h2⟩ := hpw
    by_cases hp : (a.paper_id == pid && a.created_by == user) = true
    · have hnil : l.filter (fun v => v.paper_id == pid && v.created_by == user) = [] := by
        rw [List.filter_eq_nil_iff]
        intro b hb hpb
        have hk := h1 b hb
        simp only [Bool.and_eq_true, beq_iff_eq] at hp hpb
        simp [voteKeyEq, hp.1, hp.2, hpb.1, hpb.2] at hk
      rw [List.filter_cons, if_pos hp, hnil]
      simp
    · rw [List.filter_cons, if_neg hp]
      exact ih h2

/-- Behavior of `update_or_create_vote` under the uniqueness invariant:
it never raises, it preserves the invariant, it keeps the table length
when the voter already has a vote on the paper, and it appends exactly one
fresh vote when no such vote exists. -/
theorem update_or_create_vote_spec (user : Nat) (paper : Paper) (vt : VoteType)
    (next_id : Nat) (now : Int) (votes : List Vote) (hpw : atMostOnePerPair votes) :
    ∃ votes2 st, update_or_create_vote votes user paper vt next_id now =
        Except.ok (votes2, st) ∧
      atMostOnePerPair votes2 ∧
      ((∃ v ∈ votes, v.created_by = user ∧ v.paper_id = paper.id) →
        votes2.length = votes.length) ∧
      ((∀ v ∈ votes, ¬(v.created_by = user ∧ v.paper_id = paper.id)) →
        votes2 = votes ++ [create_vote user paper.id vt next_id now]) := by
  have hlen := filter_key_len_le_one user paper.id votes hpw
  cases hfil : votes.filter (fun v => v.paper_id == paper.id && v.created_by == user) with
  | nil =>
    have hretr : retrieve_vote votes user paper.id = Except.ok none := by
      unfold retrieve_vote
      rw [hfil]
    have hupd : update_or_create_vote votes user paper vt next_id now =
        Except.ok (votes ++ [create_vote user paper.id vt next_id now], 201) := by
      unfold update_or_create_vote
      rw [hretr]
    refine ⟨_, _, hupd, ?_, ?_, fun _ => rfl⟩
    · rw [atMostOnePerPair, List.pairwise_append]
      refine ⟨hpw, by simp, ?_⟩
      intro a ha b hb
      simp only [List.mem_singleton] at hb
      subst hb
      by_contra hne
      rw [Bool.not_eq_false] at hne
      simp only [voteKeyEq, Bool.and_eq_true, beq_iff_eq, create_vote] at hne
      have hmem : a ∈ votes.filter
          (fun v => v.paper_id == paper.id && v.created_by == user) := by
        rw [List.mem_filter]
        exact ⟨ha, by simp [hne.1, hne.2]⟩
      rw [hfil] at hmem
      exact absurd hmem (List.not_mem_nil a)
    · rintro ⟨v, hv, hm1, hm2⟩
      have hmem : v ∈ votes.filter
          (fun v => v.paper_id == paper.id && v.created_by == user) := by
        rw [List.mem_filter]
        exact ⟨hv, by simp [hm1, hm2]⟩
      rw [hfil] at hmem
      exact absurd hmem (List.not_mem_nil v)
  | cons v rest =>
    cases rest with
    | nil =>
      have hretr : retrieve_vote votes user paper.id = Except.ok (some v) := by
        unfold retrieve_vote
        rw [hfil]
      have hupd : update_or_create_vote votes user paper vt next_id now =
          Except.ok (votes.map (fun w =>
            if w.paper_id == paper.id && w.created_by == user then
              { w with vote_type := vt, updated_date := now }
            else w), 200) := by
        unfold update_or_create_vote
        rw [hretr]
      refine ⟨_, _, hupd, ?_, fun _ => List.length_map _ _, ?_⟩
      · rw [atMostOnePerPair, List.pairwise_map]
        refine hpw.imp ?_
        intro a b hab
        by_cases hpa : (a.paper_id == paper.id && a.created_by == user) = true <;>
          by_cases hpb : (b.paper_id == paper.id && b.created_by == user) = true <;>
            simp only [hpa, hpb, if_pos, if_neg, if_true, if_false] <;>
              simpa [voteKeyEq] using hab
      · intro hall
        have hvmem : v ∈ votes.filter
            (fun v => v.paper_id == paper.id && v.created_by == user) := by
          rw [hfil]
          exact List.mem_cons_self v []
        obtain ⟨hvin, hvp⟩ := List.mem_filter.mp hvmem
        simp only [Bool.and_eq_true, beq_iff_eq] at hvp
        exact absurd ⟨hvp.2, hvp.1⟩ (hall v hvin)
    | cons w rest2 =>
      rw [hfil] at hlen
      simp at hlen

/-- C6: the vote endpoints preserve the at-most-one-vote-per-(voter,
paper) invariant: a voter who already has a vote on the paper has it
updated in place (the table length is unchanged), and a new vote row is
appended only when no vote by that voter on that paper exists. -/
theorem vote_uniqueness_preserved :
    (∀ (votes : List Vote) (c : CacheState) (user : Nat) (paper : Paper)
        (next_id : Nat) (now : Int) (r : VoteEndpointResult),
      atMostOnePerPair votes →
      PaperViewSet.upvote votes c user paper next_id now = Except.ok r →
      atMostOnePerPair r.votes ∧
      ((∃ v ∈ votes, v.created_by = user ∧ v.paper_id = paper.id) →
        r.votes.length = votes.length) ∧
      ((∀ v ∈ votes, ¬(v.created_by = user ∧ v.paper_id = paper.id)) →
        r.votes = votes ++ [create_vote user paper.id VoteType.upvote next_id now])) ∧
    (∀ (votes : List Vote) (c : CacheState) (user : Nat) (paper : Paper)
        (next_id : Nat) (now : Int) (r : VoteEndpointResult),
      atMostOnePerPair votes →
      PaperViewSet.downvote votes c user paper next_id now = Except.ok r →
      atMostOnePerPair r.votes ∧
      ((∃ v ∈ votes, v.created_by = user ∧ v.paper_id = paper.id) →
        r.votes.length = votes.length) ∧
      ((∀ v ∈ votes, ¬(v.created_by = user ∧ v.paper_id = paper.id)) →
        r.votes = votes ++ [create_vote user paper.id VoteType.downvote next_id now])) := by
  constructor
  · intro votes c user paper next_id now r hpw h
    unfold PaperViewSet.upvote at h
    by_cases hfv : find_vote votes user paper.id VoteType.upvote = true
    · rw [if_pos hfv] at h
      injection h with h2
      rw [← h2]
      refine ⟨hpw, fun _ => rfl, fun hall => ?_⟩
      simp only [find_vote, List.any_eq_true, Bool.and_eq_true, beq_iff_eq] at hfv
      obtain ⟨v, hv, hvp⟩ := hfv
      exact absurd ⟨hvp.1.2, hvp.1.1⟩ (hall v hv)
    · rw [if_neg hfv] at h
      obtain ⟨votes2, st, hupd, hinv, hlen, happ⟩ :=
        update_or_create_vote_spec user paper VoteType.upvote next_id now votes hpw
      rw [hupd] at h
      injection h with h2
      rw [← h2]
      exact ⟨hinv, hlen, happ⟩
  · intro votes c user paper next_id now r hpw h
    unfold PaperViewSet.downvote at h
    by_cases hfv : find_vote votes user paper.id VoteType.downvote = true
    · rw [if_pos hfv] at h
      injection h with h2
      rw [← h2]
      refine ⟨hpw, fun _ => rfl, fun hall => ?_⟩
      simp only [find_vote, List.any_eq_true, Bool.and_eq_true, beq_iff_eq] at hfv
      obtain ⟨v, hv, hvp⟩ := hfv
      exact absurd ⟨hvp.1.2, hvp.1.1⟩ (hall v hv)
    · rw [if_neg hfv] at h
      obtain ⟨votes2, st, hupd, hinv, hlen, happ⟩ :=
        update_or_create_vote_spec user paper VoteType.downvote next_id now votes hpw
      rw [hupd] at h
      injection h with h2
      rw [← h2]
      exact ⟨hinv, hlen, happ⟩

/-- The row `voteDownOnLow` after the upvote endpoint flipped it. -/
def voteFlippedUp : Vote :=
  { id := 3, created_by := 7, paper_id := 2, vote_type := VoteType.upvote,
    updated_date := 50 }

/-- C6 witness: upvoting a paper the voter had downvoted flips the single
existing row in place, keeping one vote for the pair. -/
theorem vote_uniqueness_preserved_witness :
    atMostOnePerPair [voteFlippedUp] ∧
    ((∃ v ∈ [voteDownOnLow], v.created_by = 7 ∧ v.paper_id = paperLowScore.id) →
      ([voteFlippedUp] : List Vote).length = [voteDownOnLow].length) ∧
    ((∀ v ∈ [voteDownOnLow], ¬(v.created_by = 7 ∧ v.paper_id = paperLowScore.id)) →
      [voteFlippedUp] =
        [voteDownOnLow] ++ [create_vote 7 paperLowScore.id VoteType.upvote 9 50]) :=
  vote_uniqueness_preserved.1 [voteDownOnLow] emptyCache 7 paperLowScore 9 50 _
    (by simp [atMostOnePerPair]) rfl

end ResearchHub
